import Mathlib

/-!
Verification development for the TEN runtime core, centred on
`core/src/ten_runtime/extension_context/extension_context.c`, the Python
tester log binding, and the runtime's smoke/integration test extensions.
C structures are embedded shallowly: linked lists become `List`,
`ten_string_t` becomes `String`, booleans and counters keep their meaning,
and the asynchronous callback protocol is made explicit as state-passing
functions.
-/

namespace TenRuntime

/-- Error codes of the runtime (the closed set of `ten_runtime/common/error_code.h`). -/
inductive TenErrorCode where
  | OK
  | Generic
  | InvalidArgument
  | InvalidJson
  | TenIsClosed
  | MsgNotConnected
  | Timeout
  | AddonNotFound
  | DeadlockPrevented
deriving DecidableEq

/-- `ten_error_t`: an error code together with a diagnostic message. -/
structure TenError where
  code : TenErrorCode
  msg : String
deriving DecidableEq

/-- `ten_loc_t`: the `(app_uri, graph_id, extension_name)` address triple. -/
structure Loc where
  app_uri : String
  graph_id : String
  extension_name : String
deriving DecidableEq

/-- `ten_extension_info_t` as used by `extension_context.c`: the location of the
extension inside the graph, the extension group it is scheduled into, and its
addon name. -/
structure ExtensionInfo where
  loc : Loc
  extension_group_name : String
  extension_addon_name : String
deriving DecidableEq

/-- `ten_extension_group_info_t`: the app that should host the group, the addon
that creates it, and the instance name of the group. -/
structure ExtensionGroupInfo where
  app_uri : String
  extension_group_addon_name : String
  extension_group_instance_name : String
deriving DecidableEq

/-- Whether an extension-info record matches a query of
`ten_extension_context_get_extension_info_by_name`: each non-NULL query field
must string-equal the record's location field; the `graph_id` query may be
NULL (`none`), which matches any graph. -/
def extensionInfoMatches (info : ExtensionInfo) (app_uri : String)
    (graph_id : Option String) (extension_name : String) : Bool :=
  info.loc.app_uri == app_uri
    && (match graph_id with
        | none => true
        | some g => info.loc.graph_id == g)
    && info.loc.extension_name == extension_name

/-- `ten_extension_context_get_extension_info_by_name`
(extension_context.c, lines 218-265): walk `extensions_info_from_graph` in
order, `continue` past any record whose `app_uri`, (non-NULL) `graph_id` or
`extension_name` differs, and return the first surviving record; NULL when the
walk falls off the end. -/
def ten_extension_context_get_extension_info_by_name
    (extensions_info_from_graph : List ExtensionInfo) (app_uri : String)
    (graph_id : Option String) (extension_name : String) : Option ExtensionInfo :=
  match extensions_info_from_graph with
  | [] => none
  | info :: rest =>
    if !(info.loc.app_uri == app_uri) then
      ten_extension_context_get_extension_info_by_name rest app_uri graph_id
        extension_name
    else if !(match graph_id with
              | none => true
              | some g => info.loc.graph_id == g) then
      ten_extension_context_get_extension_info_by_name rest app_uri graph_id
        extension_name
    else if !(info.loc.extension_name == extension_name) then
      ten_extension_context_get_extension_info_by_name rest app_uri graph_id
        extension_name
    else
      some info

/-- `ten_extension_context_get_extension_group_name`
(extension_context.c, lines 571-586): look the extension up by name and return
its `extension_group_name`, or NULL when the lookup fails. -/
def ten_extension_context_get_extension_group_name
    (extensions_info_from_graph : List ExtensionInfo) (app_uri : String)
    (graph_id : Option String) (extension_name : String) : Option String :=
  match ten_extension_context_get_extension_info_by_name
      extensions_info_from_graph app_uri graph_id extension_name with
  | none => none
  | some info => some info.extension_group_name

/-- Observable outcome of `ten_extension_context_start_extension_group`:
its return value, the error it set, whether the info lists were installed
into the extension context, whether `ten_extension_context_start` ran
(starting every extension thread), and the group-addon creations it issued,
in order. -/
structure StartExtensionGroupOutcome where
  result : Bool
  err : Option TenError
  installed : Bool
  context_started : Bool
  creates_issued : List String
deriving DecidableEq

/-- The `ten_list_foreach` loop of `ten_extension_context_start_extension_group`
(extension_context.c, lines 526-565): for each extension-group info located in
this app (`loc.app_uri == app->uri`), call `ten_addon_create_extension_group`;
the call fails exactly when the group addon is not registered, in which case
the loop logs, sets the error to `TEN_ERROR_CODE_GENERIC` with message
"Unable to find <addon>", sets `result = false` and breaks. Groups of other
apps are skipped. -/
def startExtensionGroupLoop (app_uri : String)
    (registered_group_addons : List String) :
    List ExtensionGroupInfo → StartExtensionGroupOutcome
  | [] =>
    { result := true, err := none, installed := false, context_started := false,
      creates_issued := [] }
  | g :: rest =>
    if g.app_uri == app_uri then
      if g.extension_group_addon_name ∈ registered_group_addons then
        let o := startExtensionGroupLoop app_uri registered_group_addons rest
        { o with creates_issued := g.extension_group_addon_name :: o.creates_issued }
      else
        { result := false,
          err := some { code := TenErrorCode.Generic,
                        msg := "Unable to find " ++ g.extension_group_addon_name },
          installed := false, context_started := false, creates_issued := [] }
    else
      startExtensionGroupLoop app_uri registered_group_addons rest

/-- `ten_extension_context_start_extension_group`
(extension_context.c, lines 483-569): when the StartGraph command's
extension-group info list is empty, install the extension info and group info
lists into the context, start the context, and return true; otherwise run the
creation loop over the group infos. `app_uri` is this app's uri and
`registered_group_addons` the set of group addons the registry can resolve. -/
def ten_extension_context_start_extension_group (app_uri : String)
    (registered_group_addons : List String)
    (extension_groups_info : List ExtensionGroupInfo) :
    StartExtensionGroupOutcome :=
  if extension_groups_info.isEmpty then
    { result := true, err := none, installed := true, context_started := true,
      creates_issued := [] }
  else
    startExtensionGroupLoop app_uri registered_group_addons extension_groups_info

/-- The partition step of the spec: the graph's extension-group infos
restricted to this app. -/
def localExtensionGroupInfos (app_uri : String)
    (extension_groups_info : List ExtensionGroupInfo) :
    List ExtensionGroupInfo :=
  extension_groups_info.filter (fun g => g.app_uri == app_uri)

/-- `TEN_STR_DEFAULT_EXTENSION_GROUP` from `common/constant_str.h`. -/
def TEN_STR_DEFAULT_EXTENSION_GROUP : String := "default_extension_group"

/-- The StartGraph command as `extension_context.c` consumes it: its single
destination location, and the extension info and extension-group info lists
parsed from the graph. -/
structure StartGraphCmd where
  dest : Loc
  extensions_info : List ExtensionInfo
  extension_groups_info : List ExtensionGroupInfo
deriving DecidableEq

/-- `ten_extension_group_t` as the done-callback manipulates it: the instance
name, the addon (`addon_host->name`) that created it, the inherited
`(extension_addon_name, extension_instance_name)` pairs, the back-pointers to
app and extension context, and the group-info record resolved at install
time. -/
structure ExtensionGroup where
  name : String
  addon_name : String
  extension_addon_and_instance_name_pairs : List (String × String)
  bound_to_app : Bool
  bound_to_context : Bool
  extension_group_info : Option ExtensionGroupInfo
deriving DecidableEq

/-- The extension-context state the StartGraph sequence mutates: the registered
extension threads (one per created group, identified by the group's instance
name), the two info lists installed from the graph, how many times each
install ran, how many `[graph resources]` lines were logged, and which threads
have been started. -/
structure ContextState where
  extension_threads : List String
  extensions_info_from_graph : List ExtensionInfo
  extension_groups_info_from_graph : List ExtensionGroupInfo
  installs_of_extensions_info : Nat
  installs_of_extension_groups_info : Nat
  graph_resources_logs : Nat
  started_threads : List String
deriving DecidableEq

/-- The context state right after `ten_extension_context_create`
(extension_context.c, lines 59-87): empty lists, zero counters. -/
def initialContextState : ContextState :=
  { extension_threads := [], extensions_info_from_graph := [],
    extension_groups_info_from_graph := [], installs_of_extensions_info := 0,
    installs_of_extension_groups_info := 0, graph_resources_logs := 0,
    started_threads := [] }

/-- Modelled from the spec:
`ten_cmd_start_graph_get_extension_addon_and_instance_name_pairs_of_specified_extension_group`
lives in the StartGraph command sources, which are not part of this corpus.
Per the spec it returns "the list of `(extension_addon_name,
extension_instance_name)` pairs that the StartGraph command scheduled into
that group", the group being selected by app uri, graph id and group
instance name. -/
def ten_cmd_start_graph_get_extension_addon_and_instance_name_pairs
    (cmd : StartGraphCmd) (app_uri graph_id extension_group_name : String) :
    List (String × String) :=
  (cmd.extensions_info.filter (fun i =>
      i.loc.app_uri == app_uri && i.loc.graph_id == graph_id
        && i.extension_group_name == extension_group_name)).map
    (fun i => (i.extension_addon_name, i.loc.extension_name))

/-- `ten_extension_context_get_extension_group_info_by_name`
(extension_context.c, lines 267-305): first group info whose `loc.app_uri` and
instance name both match. -/
def ten_extension_context_get_extension_group_info_by_name
    (extension_groups_info_from_graph : List ExtensionGroupInfo)
    (app_uri extension_group_name : String) : Option ExtensionGroupInfo :=
  match extension_groups_info_from_graph with
  | [] => none
  | g :: rest =>
    if g.app_uri == app_uri
        && g.extension_group_instance_name == extension_group_name then
      some g
    else
      ten_extension_context_get_extension_group_info_by_name rest app_uri
        extension_group_name

/-- `ten_extension_context_create_extension_group_done`
(extension_context.c, lines 376-481), as a pure step on the context state and
the freshly created group: bind the group to the app and the context; when the
group addon is the built-in `default_extension_group`, fill the group's
`(extension_addon_name, extension_instance_name)` pairs from the StartGraph
command, keyed by the command's destination `app_uri`/`graph_id` and the
group's name; create the group's extension thread and push it onto
`extension_threads`; then, when the number of this app's group infos in the
command equals the number of registered threads, install both info lists into
the context, resolve the group's info record, log one `[graph resources]`
line, and start every registered extension thread. -/
def ten_extension_context_create_extension_group_done (app_uri : String)
    (cmd : StartGraphCmd) (st : ContextState)
    (extension_group : ExtensionGroup) : ContextState × ExtensionGroup :=
  let group_bound :=
    { extension_group with bound_to_app := true, bound_to_context := true }
  let group_filled :=
    if group_bound.addon_name == TEN_STR_DEFAULT_EXTENSION_GROUP then
      { group_bound with extension_addon_and_instance_name_pairs :=
          (ten_cmd_start_graph_get_extension_addon_and_instance_name_pairs
            cmd cmd.dest.app_uri cmd.dest.graph_id extension_group.name) }
    else group_bound
  let threads := st.extension_threads ++ [extension_group.name]
  let local_groups_cnt :=
    (localExtensionGroupInfos app_uri cmd.extension_groups_info).length
  if local_groups_cnt == threads.length then
    ({ st with
        extension_threads := threads,
        extensions_info_from_graph := cmd.extensions_info,
        extension_groups_info_from_graph := cmd.extension_groups_info,
        installs_of_extensions_info := st.installs_of_extensions_info + 1,
        installs_of_extension_groups_info :=
          st.installs_of_extension_groups_info + 1,
        graph_resources_logs := st.graph_resources_logs + 1,
        started_threads := threads },
     { group_filled with extension_group_info :=
        (ten_extension_context_get_extension_group_info_by_name
          cmd.extension_groups_info app_uri extension_group.name) })
  else
    ({ st with extension_threads := threads }, group_filled)

/-- Fold `ten_extension_context_create_extension_group_done` over the groups
delivered by the addon registry, in creation order. -/
def runCreateExtensionGroupDone (app_uri : String) (cmd : StartGraphCmd) :
    List ExtensionGroup → ContextState → ContextState
  | [], st => st
  | g :: gs, st =>
    runCreateExtensionGroupDone app_uri cmd gs
      (ten_extension_context_create_extension_group_done app_uri cmd st g).1

/-- The state the close protocol of the extension context manipulates:
the live extension threads, the two counters of `extension_context.c`, whether
a close was requested of every thread, and the three effects of the terminal
step — closing the engine's `ten_env`, invoking the owner `on_closed`
callback, and destroying the context. -/
structure CloseState where
  extension_threads : List String
  extension_threads_cnt_of_closed : Nat
  extension_threads_total_cnt : Nat
  threads_close_requested : Bool
  env_closed : Bool
  on_closed_invoked : Bool
  destroyed : Bool
deriving DecidableEq

/-- A context that is up and running with the given extension threads, before
any close has been requested. -/
def runningCloseState (threads : List String) : CloseState :=
  { extension_threads := threads, extension_threads_cnt_of_closed := 0,
    extension_threads_total_cnt := 0, threads_close_requested := false,
    env_closed := false, on_closed_invoked := false, destroyed := false }

/-- `ten_extension_context_do_close_after_all_extension_threads_are_closed`
(extension_context.c, lines 116-134): close the engine's `ten_env`, invoke the
`on_closed` callback if set (modelled as always set: the app registers it),
and destroy the context. -/
def doCloseAfterAllExtensionThreadsAreClosed (st : CloseState) : CloseState :=
  { st with env_closed := true, on_closed_invoked := true, destroyed := true }

/-- `ten_extension_context_close` (extension_context.c, lines 136-165): when
`extension_threads` is empty run the terminal step at once; otherwise reset
`extension_threads_cnt_of_closed` to zero, record the total thread count, and
request a close of every extension thread. -/
def ten_extension_context_close (st : CloseState) : CloseState :=
  if st.extension_threads.isEmpty then
    doCloseAfterAllExtensionThreadsAreClosed st
  else
    { st with
        extension_threads_cnt_of_closed := 0,
        extension_threads_total_cnt := st.extension_threads.length,
        threads_close_requested := true }

/-- `ten_extension_context_could_be_close` (extension_context.c, lines
167-178). -/
def ten_extension_context_could_be_close (st : CloseState) : Bool :=
  st.extension_threads_cnt_of_closed == st.extension_threads_total_cnt

/-- `ten_extension_context_on_close` (extension_context.c, lines 190-205):
run the terminal step exactly when every extension thread has reported
closed. -/
def ten_extension_context_on_close (st : CloseState) : CloseState :=
  if ten_extension_context_could_be_close st then
    doCloseAfterAllExtensionThreadsAreClosed st
  else
    st

/-- Modelled from the spec: the engine-side handler of a closed-thread
notification is not part of this corpus; per the spec's close sequence,
"each thread reports back when it reaches Closed; the engine increments
`closed_count` and, when `closed_count == total_count`, runs the terminal
step", the thread having been removed from the context's list (the terminal
step asserts the list empty). -/
def onExtensionThreadClosed (st : CloseState) : CloseState :=
  ten_extension_context_on_close
    { st with
        extension_threads := st.extension_threads.tail,
        extension_threads_cnt_of_closed :=
          st.extension_threads_cnt_of_closed + 1 }

/-- The close protocol run: request the close, then receive `k` closed-thread
notifications. -/
def runCloseProtocol (threads : List String) (k : Nat) : CloseState :=
  Nat.iterate onExtensionThreadClosed k
    (ten_extension_context_close (runningCloseState threads))

/-- Log levels of a matcher rule; `off` is only meaningful in rules and means
"drop". Events carry the six real levels. -/
inductive LogLevel where
  | off
  | trace
  | debug
  | info
  | warn
  | error
  | fatal
deriving DecidableEq

/-- Numeric severity of a level, for the "event level is greater or equal to
the rule level" comparison. -/
def LogLevel.severity : LogLevel → Nat
  | .off => 0
  | .trace => 1
  | .debug => 2
  | .info => 3
  | .warn => 4
  | .error => 5
  | .fatal => 6

/-- Glob matching over category tokens: `*` matches any run of characters,
`?` matches one character, every other character matches itself; `:` is an
ordinary character. Structured over a fuel argument — every recursive call
shrinks the combined length of pattern and text, so any fuel beyond that sum
gives the matcher's value. -/
def globMatchCharsFuel : Nat → List Char → List Char → Bool
  | 0, _, _ => false
  | _ + 1, [], s => s.isEmpty
  | fuel + 1, c :: p, s =>
    if c == '*' then
      globMatchCharsFuel fuel p s
        || (match s with
            | [] => false
            | _ :: s2 => globMatchCharsFuel fuel (c :: p) s2)
    else
      match s with
      | [] => false
      | d :: s2 => (c == '?' || c == d) && globMatchCharsFuel fuel p s2

/-- Glob matching on strings. -/
def globMatch (pat s : String) : Bool :=
  globMatchCharsFuel (pat.toList.length + s.toList.length + 1) pat.toList
    s.toList

/-- One matcher rule: an optional category glob and a level. -/
structure LogRule where
  category : Option String
  level : LogLevel
deriving DecidableEq

/-- Modelled from the spec: the advanced-log matcher implementation is not in
this corpus. Per the spec, "an event matches a rule if (a) the rule has no
category or the event category matches the glob, and (b) the event level is
greater or equal to the rule level (`off` means drop)": a rule whose level is
`off` matches on its category alone and drops the event. -/
def ruleMatches (r : LogRule) (category : String) (level : LogLevel) : Bool :=
  (match r.category with
   | none => true
   | some pat => globMatch pat category)
    && (r.level == LogLevel.off
        || LogLevel.severity r.level ≤ LogLevel.severity level)

/-- Modelled from the spec: "ordered list of rules; first matching rule wins
... if no rule matches, the event is dropped for this handler". A matching
`off` rule drops the event; any other matching rule emits it. -/
def handlerEmits : List LogRule → String → LogLevel → Bool
  | [], _, _ => false
  | r :: rest, category, level =>
    if ruleMatches r category level then !(r.level == LogLevel.off)
    else handlerEmits rest category level

/-- The per-handler outcome exactly as claimed: the first rule whose category
glob matches (regardless of level) decides, the event being emitted iff its
level is at least the rule's and the rule's level is not `off`. Written from
the claim's words, to be compared with `handlerEmits`. -/
def handlerEmitsFirstCategoryMatch : List LogRule → String → LogLevel → Bool
  | [], _, _ => false
  | r :: rest, category, level =>
    if (match r.category with
        | none => true
        | some pat => globMatch pat category) then
      (LogLevel.severity r.level ≤ LogLevel.severity level)
        && !(r.level == LogLevel.off)
    else handlerEmitsFirstCategoryMatch rest category level

/-- Handler A of the category-filter smoke test
(`log_advanced_category_filter.cc`, `test_app::on_configure`): the single rule
`{category: "ten:runtime", level: info}`. -/
def categoryFilterHandlerA : List LogRule :=
  [{ category := some ("ten:runtime"), level := LogLevel.info }]

/-- Handler B of the category-filter smoke test: rules
`[{category: "ten:runtime", level: off}, {level: debug}]`. -/
def categoryFilterHandlerB : List LogRule :=
  [{ category := some ("ten:runtime"), level := LogLevel.off },
   { category := none, level := LogLevel.debug }]

/-- Both handlers of the test emit to the same file path, so a line reaches
`category_filter_test.log` iff at least one of the two handlers emits the
event. -/
def categoryFilterFileHasLine (category : String) (level : LogLevel) : Bool :=
  handlerEmits categoryFilterHandlerA category level
    || handlerEmits categoryFilterHandlerB category level

/-- What `ten_py_ten_env_tester_log` hands back to Python: a raised
`ValueError`, a wrapped `ten_error_t` object, or `None`. -/
inductive PyLogOutcome where
  | valueErrorRaised (reason : String)
  | errorWrapReturned (e : TenError)
  | noneReturned
deriving DecidableEq

/-- One invocation of the Python tester log binding, abstracting the CPython
plumbing: the size of the argument tuple, whether `PyArg_ParseTuple`
succeeds, whether `fields_buf` is `None` or `bytes`, whether
`c_ten_env_tester_proxy` is still non-NULL, and what
`ten_env_tester_proxy_notify` would report (`none` means it accepts the
task). -/
structure PyLogCall where
  arg_count : Nat
  parse_ok : Bool
  fields_buf_is_none_or_bytes : Bool
  proxy_alive : Bool
  proxy_notify_error : Option TenError
deriving DecidableEq

/-- `ten_py_ten_env_tester_log` (`env_tester_log.c`, lines 127-199): check the
argument count, parse the tuple, fail with `TEN_ERROR_CODE_TEN_IS_CLOSED`
when the proxy is gone, validate `fields_buf`, then post the notify task to
the proxy. The second component counts the tasks actually posted. -/
def ten_py_ten_env_tester_log (call : PyLogCall) : PyLogOutcome × Nat :=
  if !(call.arg_count == 8) then
    (PyLogOutcome.valueErrorRaised ("Invalid argument count when " ++
      "ten_env_tester.log."), 0)
  else if !call.parse_ok then
    (PyLogOutcome.valueErrorRaised ("Failed to parse argument when " ++
      "ten_env_tester.log."), 0)
  else if !call.proxy_alive then
    (PyLogOutcome.errorWrapReturned
      { code := TenErrorCode.TenIsClosed,
        msg := "ten_env_tester.log() failed because ten is closed." }, 0)
  else if !call.fields_buf_is_none_or_bytes then
    (PyLogOutcome.valueErrorRaised ("fields_buf must be bytes or None."), 0)
  else
    match call.proxy_notify_error with
    | some e => (PyLogOutcome.errorWrapReturned e, 0)
    | none => (PyLogOutcome.noneReturned, 1)

/-- A decimal integer literal as it stands in a JSON text: a sign and the
little-endian list of decimal digits. -/
structure DecimalInt where
  negative : Bool
  digits : List Nat
deriving DecidableEq

/-- Render an i64 value as JSON decimal text. -/
def encodeInt64 (i : Int) : DecimalInt :=
  { negative := decide (i < 0), digits := Nat.digits 10 i.natAbs }

/-- Parse a JSON decimal integer back to its value. -/
def decodeInt64 (d : DecimalInt) : Int :=
  if d.negative then -(Int.ofNat (Nat.ofDigits 10 d.digits))
  else Int.ofNat (Nat.ofDigits 10 d.digits)

/-- The field values the structured-log tests put into the `fields` map:
strings, i64 integers, decimal floating literals (mantissa times ten to the
minus `scale`), and booleans. -/
inductive FieldValue where
  | vstring (s : String)
  | vint64 (i : Int)
  | vdecimal (mantissa : Int) (scale : Nat)
  | vbool (b : Bool)
deriving DecidableEq

/-- Modelled from the spec: the JSON formatter of the structured logger is not
in this corpus; per the spec it "renders a single JSON object per line" and
"`Value` to JSON is identity on the JSON-representable subset". A scalar of
the rendered object: i64 fields become decimal integer literals (not f64). -/
inductive JsonScalar where
  | jstring (s : String)
  | jint (d : DecimalInt)
  | jdecimal (negative : Bool) (digits : List Nat) (scale : Nat)
  | jbool (b : Bool)
deriving DecidableEq

/-- Render one field value into the JSON object. -/
def encodeField : FieldValue → JsonScalar
  | .vstring s => JsonScalar.jstring s
  | .vint64 i => JsonScalar.jint (encodeInt64 i)
  | .vdecimal m scale =>
    JsonScalar.jdecimal (decide (m < 0)) (Nat.digits 10 m.natAbs) scale
  | .vbool b => JsonScalar.jbool b

/-- Parse one JSON scalar back to a field value. -/
def decodeField : JsonScalar → FieldValue
  | .jstring s => FieldValue.vstring s
  | .jint d => FieldValue.vint64 (decodeInt64 d)
  | .jdecimal neg ds scale =>
    FieldValue.vdecimal
      (if neg then -(Int.ofNat (Nat.ofDigits 10 ds))
       else Int.ofNat (Nat.ofDigits 10 ds))
      scale
  | .jbool b => FieldValue.vbool b

/-- Render a whole fields map. -/
def encodeFields (fields : List (String × FieldValue)) :
    List (String × JsonScalar) :=
  fields.map (fun kv => (kv.1, encodeField kv.2))

/-- Parse a whole rendered fields map. -/
def decodeFields (obj : List (String × JsonScalar)) :
    List (String × FieldValue) :=
  obj.map (fun kv => (kv.1, decodeField kv.2))

/-- The fields map of `log_advanced_with_fields.cc`, `test_extension::on_init`,
test 1. -/
def logAdvancedWithFieldsMap : List (String × FieldValue) :=
  [("string_field", FieldValue.vstring ("hello world")),
   ("int_field", FieldValue.vint64 42),
   ("float_field", FieldValue.vdecimal 314159 5),
   ("bool_field", FieldValue.vbool true),
   ("negative_int", FieldValue.vint64 (-100)),
   ("large_number", FieldValue.vint64 9223372036854775807)]

/-- An integer has an exact IEEE-754 binary64 representation iff it can be
written with a mantissa below two to the 53 and a nonnegative binary
exponent. -/
def representableAsF64 (i : Int) : Prop :=
  ∃ m : Int, ∃ e : Nat, m.natAbs < 2 ^ 53 ∧ i = m * 2 ^ e

/-- The commands the long-running ping-pong app exchanges. -/
inductive PingPongMsg where
  | test_cmd_from_1
  | test_cmd_from_2
  | close_app
deriving DecidableEq

/-- Observable state of the two-extension ping-pong app: extension_1's
counter, the message in flight, per-extension receipt/reply/send counters,
the CloseApp commands sent with their destination locations, and the
shutdown effects. -/
structure PingPongState where
  ext1_cnt : Nat
  inflight : Option PingPongMsg
  from1_receipts : Nat
  from2_receipts : Nat
  ext1_ok_results : Nat
  ext2_ok_results : Nat
  from1_sends : Nat
  from2_sends : Nat
  close_app_sends : Nat
  close_app_dest_locs : List Loc
  app_closed : Bool
  ext1_on_deinit_done : Bool
  ext2_on_deinit_done : Bool
  exit_status : Option Nat
deriving DecidableEq

/-- The state right after `extension_1`'s `on_start`
(`extension_1/src/main.cc`, lines 16-30): `on_start_done`, then one
`test_cmd_from_1` sent. -/
def pingPongInit : PingPongState :=
  { ext1_cnt := 0, inflight := some PingPongMsg.test_cmd_from_1,
    from1_receipts := 0, from2_receipts := 0, ext1_ok_results := 0,
    ext2_ok_results := 0, from1_sends := 1, from2_sends := 0,
    close_app_sends := 0, close_app_dest_locs := [], app_closed := false,
    ext1_on_deinit_done := false, ext2_on_deinit_done := false,
    exit_status := none }

/-- Deliver the message in flight. `test_cmd_from_1` runs
`extension_2::on_cmd` (`extension_2/src/main.cc`, lines 16-47): reply OK,
then send `test_cmd_from_2` back. `test_cmd_from_2` runs
`extension_1::on_cmd` (`extension_1/src/main.cc`, lines 32-70): reply OK,
then either increment the counter and resend `test_cmd_from_1` (counter
below 100) or send one CloseApp whose single destination location is all
empty (`set_dests({{""}})`). The CloseApp branch is modelled from the spec:
the runtime's app shutdown is not in this corpus; per the spec a CloseApp
drives an orderly close in which every extension executes `on_deinit_done`
and the process exits with status 0. -/
def pingPongStep (st : PingPongState) : PingPongState :=
  match st.inflight with
  | none => st
  | some PingPongMsg.test_cmd_from_1 =>
    { st with
        from1_receipts := st.from1_receipts + 1,
        ext2_ok_results := st.ext2_ok_results + 1,
        from2_sends := st.from2_sends + 1,
        inflight := some PingPongMsg.test_cmd_from_2 }
  | some PingPongMsg.test_cmd_from_2 =>
    if st.ext1_cnt < 100 then
      { st with
          from2_receipts := st.from2_receipts + 1,
          ext1_ok_results := st.ext1_ok_results + 1,
          ext1_cnt := st.ext1_cnt + 1,
          from1_sends := st.from1_sends + 1,
          inflight := some PingPongMsg.test_cmd_from_1 }
    else
      { st with
          from2_receipts := st.from2_receipts + 1,
          ext1_ok_results := st.ext1_ok_results + 1,
          close_app_sends := st.close_app_sends + 1,
          close_app_dest_locs := st.close_app_dest_locs ++
            [{ app_uri := "", graph_id := "", extension_name := "" }],
          inflight := some PingPongMsg.close_app }
  | some PingPongMsg.close_app =>
    { st with
        app_closed := true,
        ext1_on_deinit_done := true,
        ext2_on_deinit_done := true,
        exit_status := some 0,
        inflight := none }

/-- Run the ping-pong app for `k` message deliveries. -/
def pingPongRun (k : Nat) : PingPongState :=
  Nat.iterate pingPongStep k pingPongInit

/-! ## Lemmas about the extension-info lookup -/

theorem get_extension_info_by_name_eq_find (extensions : List ExtensionInfo)
    (app_uri : String) (graph_id : Option String) (extension_name : String) :
    ten_extension_context_get_extension_info_by_name extensions app_uri
        graph_id extension_name
      = extensions.find?
          (fun i => extensionInfoMatches i app_uri graph_id extension_name) := by
  induction extensions with
  | nil => rfl
  | cons info rest ih =>
    simp only [ten_extension_context_get_extension_info_by_name,
      List.find?_cons, extensionInfoMatches]
    cases ha : (info.loc.app_uri == app_uri) <;>
      cases hg : (match graph_id with
                  | none => true
                  | some g => info.loc.graph_id == g) <;>
        cases hn : (info.loc.extension_name == extension_name) <;>
          simp [ha, hg, hn, ih, extensionInfoMatches]

/-- C10: for every extension context and query, the lookup returns the first
record of `extensions_info_from_graph` whose location string-equals every
non-NULL query field, a NULL `graph_id` matching any graph, and NULL when no
record matches; consequently `ten_extension_context_get_extension_group_name`
returns NULL, rather than failing, when the named extension does not exist in
the graph. -/
theorem get_extension_info_by_name_first_match (extensions : List ExtensionInfo)
    (app_uri : String) (graph_id : Option String) (extension_name : String) :
    ten_extension_context_get_extension_info_by_name extensions app_uri
        graph_id extension_name
      = extensions.find?
          (fun i => extensionInfoMatches i app_uri graph_id extension_name)
    ∧ ((∀ i ∈ extensions,
          extensionInfoMatches i app_uri graph_id extension_name = false) →
        ten_extension_context_get_extension_group_name extensions app_uri
          graph_id extension_name = none) := by
  constructor
  · exact get_extension_info_by_name_eq_find extensions app_uri graph_id
      extension_name
  · intro h
    have hfind : extensions.find?
        (fun i => extensionInfoMatches i app_uri graph_id extension_name)
          = none := by
      rw [List.find?_eq_none]
      intro x hx
      simp [h x hx]
    unfold ten_extension_context_get_extension_group_name
    rw [get_extension_info_by_name_eq_find, hfind]

theorem get_extension_info_by_name_first_match_witness :
    (∀ i ∈ ([{ loc := { app_uri := "app_a", graph_id := "g1",
                        extension_name := "ext_a" },
               extension_group_name := "grp",
               extension_addon_name := "addon_a" }] : List ExtensionInfo),
        extensionInfoMatches i ("app_a") none ("missing") = false)
    ∧ ten_extension_context_get_extension_group_name
        [{ loc := { app_uri := "app_a", graph_id := "g1",
                    extension_name := "ext_a" },
           extension_group_name := "grp",
           extension_addon_name := "addon_a" }]
        ("app_a") none ("missing") = none :=
  ⟨by decide,
   (get_extension_info_by_name_first_match _ _ _ _).2 (by decide)⟩

/-! ## Lemmas about `ten_extension_context_start_extension_group` -/

theorem startExtensionGroupLoop_no_local (app_uri : String)
    (registered_group_addons : List String)
    (extension_groups_info : List ExtensionGroupInfo)
    (h : localExtensionGroupInfos app_uri extension_groups_info = []) :
    startExtensionGroupLoop app_uri registered_group_addons
        extension_groups_info
      = { result := true, err := none, installed := false,
          context_started := false, creates_issued := [] } := by
  induction extension_groups_info with
  | nil => rfl
  | cons g gs ih =>
    cases hg : (g.app_uri == app_uri) with
    | true =>
      exfalso
      simp [localExtensionGroupInfos, List.filter_cons, hg] at h
    | false =>
      have h2 : localExtensionGroupInfos app_uri gs = [] := by
        simpa [localExtensionGroupInfos, List.filter_cons, hg] using h
      simp [startExtensionGroupLoop, hg, ih h2]

/-- C1 counterexample: a StartGraph whose extension-group info list names only
another app's group has an empty local partition, yet
`ten_extension_context_start_extension_group` neither installs the info lists
nor starts the extension context — it only checks whether the whole list is
empty; it does still return true. -/
theorem start_extension_group_local_partition_cex :
    localExtensionGroupInfos ("app_a")
        [{ app_uri := "app_b", extension_group_addon_name := "some_addon",
           extension_group_instance_name := "grp_1" }] = []
    ∧ (ten_extension_context_start_extension_group ("app_a") []
        [{ app_uri := "app_b", extension_group_addon_name := "some_addon",
           extension_group_instance_name := "grp_1" }]).result = true
    ∧ (ten_extension_context_start_extension_group ("app_a") []
        [{ app_uri := "app_b", extension_group_addon_name := "some_addon",
           extension_group_instance_name := "grp_1" }]).installed = false
    ∧ (ten_extension_context_start_extension_group ("app_a") []
        [{ app_uri := "app_b", extension_group_addon_name := "some_addon",
           extension_group_instance_name := "grp_1" }]).context_started
      = false := by
  decide

/-- C1 (amended): when the StartGraph command's extension-group info list is
empty as a whole, `ten_extension_context_start_extension_group` installs the
(possibly empty) extension and group info lists into the extension context,
starts it, and returns true — an empty graph is legal; when the list is
non-empty but its partition local to this app is empty, the function still
returns true with no error, though it neither installs the lists nor starts
the context. -/
theorem start_extension_group_empty_graph (app_uri : String)
    (registered_group_addons : List String)
    (extension_groups_info : List ExtensionGroupInfo) :
    (extension_groups_info = [] →
      ten_extension_context_start_extension_group app_uri
          registered_group_addons extension_groups_info
        = { result := true, err := none, installed := true,
            context_started := true, creates_issued := [] })
    ∧ (extension_groups_info ≠ [] →
        localExtensionGroupInfos app_uri extension_groups_info = [] →
        ten_extension_context_start_extension_group app_uri
            registered_group_addons extension_groups_info
          = { result := true, err := none, installed := false,
              context_started := false, creates_issued := [] }) := by
  constructor
  · intro h
    subst h
    rfl
  · intro hne h
    cases extension_groups_info with
    | nil => exact absurd rfl hne
    | cons g gs =>
      have hemp : ((g :: gs : List ExtensionGroupInfo).isEmpty) = false := rfl
      unfold ten_extension_context_start_extension_group
      rw [hemp]
      rw [startExtensionGroupLoop_no_local app_uri registered_group_addons
        (g :: gs) h]
      rfl

theorem start_extension_group_empty_graph_witness :
    ([] : List ExtensionGroupInfo) = []
    ∧ ten_extension_context_start_extension_group ("app_a") ["addon_x"] []
      = { result := true, err := none, installed := true,
          context_started := true, creates_issued := [] }
    ∧ ([{ app_uri := "app_b", extension_group_addon_name := "some_addon",
          extension_group_instance_name := "grp_1" }] :
        List ExtensionGroupInfo) ≠ []
    ∧ localExtensionGroupInfos ("app_a")
        [{ app_uri := "app_b", extension_group_addon_name := "some_addon",
           extension_group_instance_name := "grp_1" }] = []
    ∧ ten_extension_context_start_extension_group ("app_a") ["addon_x"]
        [{ app_uri := "app_b", extension_group_addon_name := "some_addon",
           extension_group_instance_name := "grp_1" }]
      = { result := true, err := none, installed := false,
          context_started := false, creates_issued := [] } :=
  ⟨rfl, (start_extension_group_empty_graph ("app_a") ["addon_x"] []).1 rfl,
   by decide, by decide,
   (start_extension_group_empty_graph ("app_a") ["addon_x"]
     [{ app_uri := "app_b", extension_group_addon_name := "some_addon",
        extension_group_instance_name := "grp_1" }]).2 (by decide)
     (by decide)⟩

theorem startExtensionGroupLoop_missing_addon (app_uri : String)
    (registered_group_addons : List String) :
    ∀ (extension_groups_info : List ExtensionGroupInfo)
      (g : ExtensionGroupInfo),
      (localExtensionGroupInfos app_uri extension_groups_info).find?
          (fun x =>
            decide (x.extension_group_addon_name ∉ registered_group_addons))
        = some g →
      startExtensionGroupLoop app_uri registered_group_addons
          extension_groups_info
        = { result := false,
            err := some { code := TenErrorCode.Generic,
                          msg := "Unable to find "
                            ++ g.extension_group_addon_name },
            installed := false, context_started := false,
            creates_issued :=
              ((localExtensionGroupInfos app_uri
                  extension_groups_info).takeWhile
                (fun x =>
                  decide (x.extension_group_addon_name
                    ∈ registered_group_addons))).map
                (fun x => x.extension_group_addon_name) } := by
  intro extension_groups_info
  induction extension_groups_info with
  | nil => intro g h; simp [localExtensionGroupInfos] at h
  | cons a gs ih =>
    intro g h
    cases ha : (a.app_uri == app_uri) with
    | false =>
      have hloc : localExtensionGroupInfos app_uri (a :: gs)
          = localExtensionGroupInfos app_uri gs := by
        simp [localExtensionGroupInfos, List.filter_cons, ha]
      rw [hloc] at h ⊢
      simp only [startExtensionGroupLoop, ha, Bool.false_eq_true, if_false]
      exact ih g h
    | true =>
      have hloc : localExtensionGroupInfos app_uri (a :: gs)
          = a :: localExtensionGroupInfos app_uri gs := by
        simp [localExtensionGroupInfos, List.filter_cons, ha]
      rw [hloc] at h ⊢
      by_cases hmem : a.extension_group_addon_name ∈ registered_group_addons
      · have h2 : (localExtensionGroupInfos app_uri gs).find?
            (fun x =>
              decide (x.extension_group_addon_name
                ∉ registered_group_addons)) = some g := by
          rw [List.find?_cons] at h
          simpa [hmem] using h
        simp only [startExtensionGroupLoop, ha, if_true]
        rw [if_pos hmem, ih g h2]
        simp [List.takeWhile_cons, hmem]
      · have hg : g = a := by
          rw [List.find?_cons] at h
          simp [hmem] at h
          exact h.symm
        subst hg
        simp only [startExtensionGroupLoop, ha, if_true]
        rw [if_neg hmem]
        simp [List.takeWhile_cons, hmem]

/-- C4: for every StartGraph whose local extension-group infos contain one
whose group addon cannot be resolved, `ten_extension_context_start_extension_group`
issues creations only for the local groups before the first unresolvable one,
then stops, returns false, and sets the error to code `Generic` with message
exactly "Unable to find <addon_name>" naming the missing addon. -/
theorem start_extension_group_missing_addon (app_uri : String)
    (registered_group_addons : List String)
    (extension_groups_info : List ExtensionGroupInfo) (g : ExtensionGroupInfo)
    (hfind : (localExtensionGroupInfos app_uri extension_groups_info).find?
        (fun x =>
          decide (x.extension_group_addon_name ∉ registered_group_addons))
      = some g) :
    (ten_extension_context_start_extension_group app_uri
        registered_group_addons extension_groups_info).result = false
    ∧ (ten_extension_context_start_extension_group app_uri
        registered_group_addons extension_groups_info).err
      = some { code := TenErrorCode.Generic,
               msg := "Unable to find " ++ g.extension_group_addon_name }
    ∧ (ten_extension_context_start_extension_group app_uri
        registered_group_addons extension_groups_info).creates_issued
      = ((localExtensionGroupInfos app_uri extension_groups_info).takeWhile
          (fun x =>
            decide (x.extension_group_addon_name
              ∈ registered_group_addons))).map
          (fun x => x.extension_group_addon_name) := by
  cases extension_groups_info with
  | nil => simp [localExtensionGroupInfos] at hfind
  | cons a gs =>
    have hne : ((a :: gs : List ExtensionGroupInfo).isEmpty) = false := rfl
    unfold ten_extension_context_start_extension_group
    rw [hne]
    rw [startExtensionGroupLoop_missing_addon app_uri registered_group_addons
      (a :: gs) g hfind]
    exact ⟨rfl, rfl, rfl⟩

theorem start_extension_group_missing_addon_witness :
    (localExtensionGroupInfos ("app_a")
        [{ app_uri := "app_a", extension_group_addon_name := "good_addon",
           extension_group_instance_name := "grp_1" },
         { app_uri := "app_a", extension_group_addon_name := "does_not_exist",
           extension_group_instance_name := "grp_2" }]).find?
        (fun x => decide (x.extension_group_addon_name
          ∉ (["good_addon"] : List String)))
      = some { app_uri := "app_a",
               extension_group_addon_name := "does_not_exist",
               extension_group_instance_name := "grp_2" }
    ∧ (ten_extension_context_start_extension_group ("app_a") ["good_addon"]
        [{ app_uri := "app_a", extension_group_addon_name := "good_addon",
           extension_group_instance_name := "grp_1" },
         { app_uri := "app_a", extension_group_addon_name := "does_not_exist",
           extension_group_instance_name := "grp_2" }]).err
      = some { code := TenErrorCode.Generic,
               msg := "Unable to find "
                 ++ ({ app_uri := "app_a",
                       extension_group_addon_name := "does_not_exist",
                       extension_group_instance_name :=
                         "grp_2" } : ExtensionGroupInfo).extension_group_addon_name } :=
  ⟨by decide,
   (start_extension_group_missing_addon ("app_a") ["good_addon"]
     [{ app_uri := "app_a", extension_group_addon_name := "good_addon",
        extension_group_instance_name := "grp_1" },
      { app_uri := "app_a", extension_group_addon_name := "does_not_exist",
        extension_group_instance_name := "grp_2" }]
     { app_uri := "app_a", extension_group_addon_name := "does_not_exist",
       extension_group_instance_name := "grp_2" }
     (by decide)).2.1⟩

/-! ## Lemmas about the close protocol -/

theorem runCloseProtocol_spec (threads : List String) (hne : threads ≠ []) :
    ∀ k, k ≤ threads.length →
      runCloseProtocol threads k
        = { extension_threads := threads.drop k,
            extension_threads_cnt_of_closed := k,
            extension_threads_total_cnt := threads.length,
            threads_close_requested := true,
            env_closed := decide (k = threads.length),
            on_closed_invoked := decide (k = threads.length),
            destroyed := decide (k = threads.length) } := by
  have hemp : threads.isEmpty = false := by
    cases threads with
    | nil => exact absurd rfl hne
    | cons a as => rfl
  have hlen : 0 < threads.length := by
    cases threads with
    | nil => exact absurd rfl hne
    | cons a as => simp
  intro k
  induction k with
  | zero =>
    intro _
    have hd : decide (0 = threads.length) = false := by
      simp only [decide_eq_false_iff_not]
      omega
    simp [runCloseProtocol, ten_extension_context_close, runningCloseState,
      hemp, hd]
  | succ k ih =>
    intro hk1
    have hk : k ≤ threads.length := Nat.le_of_succ_le hk1
    have hd : decide (k = threads.length) = false := by
      simp only [decide_eq_false_iff_not]
      omega
    rw [runCloseProtocol, Function.iterate_succ_apply']
    rw [show (Nat.iterate onExtensionThreadClosed k
      (ten_extension_context_close (runningCloseState threads)))
        = runCloseProtocol threads k from rfl]
    rw [ih hk]
    by_cases hkn : k + 1 = threads.length
    · simp [onExtensionThreadClosed, ten_extension_context_on_close,
        ten_extension_context_could_be_close,
        doCloseAfterAllExtensionThreadsAreClosed, hkn, List.tail_drop]
    · simp only [onExtensionThreadClosed, ten_extension_context_on_close,
        ten_extension_context_could_be_close, List.tail_drop]
      have hb : (k + 1 == threads.length) = false := by
        simp only [beq_eq_false_iff_ne, ne_eq]
        omega
      have hd1 : decide (k + 1 = threads.length) = false := by
        simp only [decide_eq_false_iff_not]
        omega
      simp [hb, hd1]
      omega

/-- C2: the terminal close step (closing the engine's `ten_env`, invoking the
`on_closed` callback, destroying the context) runs immediately on `close()`
when `extension_threads` is empty, and otherwise runs exactly when the number
of closed-thread notifications equals the thread count recorded at `close()`;
`extension_threads_cnt_of_closed` never exceeds
`extension_threads_total_cnt` and equals it at the moment the terminal step
runs. -/
theorem extension_context_close_protocol (threads : List String) (k : Nat)
    (hk : k ≤ threads.length) :
    (threads = [] →
      ten_extension_context_close (runningCloseState threads)
        = doCloseAfterAllExtensionThreadsAreClosed (runningCloseState threads))
    ∧ (threads ≠ [] →
        (runCloseProtocol threads k).extension_threads_cnt_of_closed = k
        ∧ (runCloseProtocol threads k).extension_threads_total_cnt
            = threads.length
        ∧ (runCloseProtocol threads k).extension_threads_cnt_of_closed
            ≤ (runCloseProtocol threads k).extension_threads_total_cnt
        ∧ (runCloseProtocol threads k).destroyed = decide (k = threads.length)
        ∧ (runCloseProtocol threads k).env_closed = decide (k = threads.length)
        ∧ (runCloseProtocol threads k).on_closed_invoked
            = decide (k = threads.length)) := by
  constructor
  · intro h
    subst h
    rfl
  · intro hne
    rw [runCloseProtocol_spec threads hne k hk]
    exact ⟨rfl, rfl, hk, rfl, rfl, rfl⟩

theorem extension_context_close_protocol_witness :
    (2 : Nat) ≤ (["thread_a", "thread_b"] : List String).length
    ∧ (["thread_a", "thread_b"] : List String) ≠ []
    ∧ (runCloseProtocol ["thread_a", "thread_b"] 2).destroyed
        = decide (2 = (["thread_a", "thread_b"] : List String).length) :=
  ⟨by decide, by decide,
   ((extension_context_close_protocol ["thread_a", "thread_b"] 2
     (by decide)).2 (by decide)).2.2.2.1⟩

/-! ## Lemmas about the group-creation completion callback -/

theorem runCreateExtensionGroupDone_below (app_uri : String)
    (cmd : StartGraphCmd) :
    ∀ (gs : List ExtensionGroup) (st : ContextState),
      st.extension_threads.length + gs.length
          < (localExtensionGroupInfos app_uri cmd.extension_groups_info).length →
      runCreateExtensionGroupDone app_uri cmd gs st
        = { st with extension_threads :=
              st.extension_threads ++ gs.map (fun g => g.name) } := by
  intro gs
  induction gs with
  | nil =>
    intro st _
    simp [runCreateExtensionGroupDone]
  | cons g gs ih =>
    intro st h
    have hcond : ((localExtensionGroupInfos app_uri
        cmd.extension_groups_info).length
          == (st.extension_threads ++ [g.name]).length) = false := by
      simp only [beq_eq_false_iff_ne, ne_eq, List.length_append,
        List.length_cons, List.length_nil]
      simp only [List.length_cons] at h
      omega
    rw [runCreateExtensionGroupDone]
    rw [show (ten_extension_context_create_extension_group_done app_uri cmd
        st g).1
      = { st with extension_threads := st.extension_threads ++ [g.name] } by
        simp only [ten_extension_context_create_extension_group_done, hcond,
          Bool.false_eq_true, if_false]]
    rw [ih { st with extension_threads := st.extension_threads ++ [g.name] }
      (by simp only [List.length_append, List.length_cons, List.length_nil]
          simp only [List.length_cons] at h
          omega)]
    simp

theorem runCreateExtensionGroupDone_complete (app_uri : String)
    (cmd : StartGraphCmd) :
    ∀ (gs : List ExtensionGroup) (st : ContextState), gs ≠ [] →
      st.extension_threads.length + gs.length
          = (localExtensionGroupInfos app_uri cmd.extension_groups_info).length →
      runCreateExtensionGroupDone app_uri cmd gs st
        = { st with
            extension_threads :=
              st.extension_threads ++ gs.map (fun g => g.name),
            extensions_info_from_graph := cmd.extensions_info,
            extension_groups_info_from_graph := cmd.extension_groups_info,
            installs_of_extensions_info := st.installs_of_extensions_info + 1,
            installs_of_extension_groups_info :=
              st.installs_of_extension_groups_info + 1,
            graph_resources_logs := st.graph_resources_logs + 1,
            started_threads :=
              st.extension_threads ++ gs.map (fun g => g.name) } := by
  intro gs
  induction gs with
  | nil => intro st hne _; exact absurd rfl hne
  | cons g gs ih =>
    intro st _ h
    cases gs with
    | nil =>
      have hcond : ((localExtensionGroupInfos app_uri
          cmd.extension_groups_info).length
            == (st.extension_threads ++ [g.name]).length) = true := by
        simp only [beq_iff_eq, List.length_append, List.length_cons,
          List.length_nil]
        simp only [List.length_cons, List.length_nil] at h
        omega
      rw [runCreateExtensionGroupDone]
      rw [show (ten_extension_context_create_extension_group_done app_uri cmd
          st g).1
        = { st with
            extension_threads := st.extension_threads ++ [g.name],
            extensions_info_from_graph := cmd.extensions_info,
            extension_groups_info_from_graph := cmd.extension_groups_info,
            installs_of_extensions_info := st.installs_of_extensions_info + 1,
            installs_of_extension_groups_info :=
              st.installs_of_extension_groups_info + 1,
            graph_resources_logs := st.graph_resources_logs + 1,
            started_threads := st.extension_threads ++ [g.name] } by
          simp only [ten_extension_context_create_extension_group_done, hcond,
            if_true]]
      simp [runCreateExtensionGroupDone]
    | cons g2 gs2 =>
      have hcond : ((localExtensionGroupInfos app_uri
          cmd.extension_groups_info).length
            == (st.extension_threads ++ [g.name]).length) = false := by
        simp only [beq_eq_false_iff_ne, ne_eq, List.length_append,
          List.length_cons, List.length_nil]
        simp only [List.length_cons] at h
        omega
      rw [runCreateExtensionGroupDone]
      rw [show (ten_extension_context_create_extension_group_done app_uri cmd
          st g).1
        = { st with extension_threads := st.extension_threads ++ [g.name] } by
          simp only [ten_extension_context_create_extension_group_done, hcond,
            Bool.false_eq_true, if_false]]
      rw [ih { st with extension_threads := st.extension_threads ++ [g.name] }
        (by simp)
        (by simp only [List.length_append, List.length_cons, List.length_nil]
            simp only [List.length_cons] at h
            omega)]
      simp

/-- C3: for a StartGraph start sequence with at least one local extension
group, while the number of registered extension threads is below the number
of the graph's local extension-group infos, the completion callback installs
nothing, logs nothing and starts no thread, and the context's info lists are
still empty; at the callback that makes the two counts equal, the extension
info and group info lists are installed (each exactly once, the targets
having been empty), one `[graph resources]` line is logged, and every
registered extension thread is started. -/
theorem create_extension_group_done_completion (app_uri : String)
    (cmd : StartGraphCmd) (gs : List ExtensionGroup)
    (hlen : gs.length
      = (localExtensionGroupInfos app_uri cmd.extension_groups_info).length)
    (hne : gs ≠ []) :
    (∀ k, k < gs.length →
      (runCreateExtensionGroupDone app_uri cmd (gs.take k)
          initialContextState).installs_of_extensions_info = 0
      ∧ (runCreateExtensionGroupDone app_uri cmd (gs.take k)
          initialContextState).installs_of_extension_groups_info = 0
      ∧ (runCreateExtensionGroupDone app_uri cmd (gs.take k)
          initialContextState).graph_resources_logs = 0
      ∧ (runCreateExtensionGroupDone app_uri cmd (gs.take k)
          initialContextState).started_threads = []
      ∧ (runCreateExtensionGroupDone app_uri cmd (gs.take k)
          initialContextState).extensions_info_from_graph = []
      ∧ (runCreateExtensionGroupDone app_uri cmd (gs.take k)
          initialContextState).extension_groups_info_from_graph = []
      ∧ (runCreateExtensionGroupDone app_uri cmd (gs.take k)
          initialContextState).extension_threads
          = (gs.take k).map (fun g => g.name))
    ∧ runCreateExtensionGroupDone app_uri cmd gs initialContextState
      = { extension_threads := gs.map (fun g => g.name),
          extensions_info_from_graph := cmd.extensions_info,
          extension_groups_info_from_graph := cmd.extension_groups_info,
          installs_of_extensions_info := 1,
          installs_of_extension_groups_info := 1,
          graph_resources_logs := 1,
          started_threads := gs.map (fun g => g.name) } := by
  constructor
  · intro k hk
    rw [runCreateExtensionGroupDone_below app_uri cmd (gs.take k)
      initialContextState
      (by simp only [initialContextState, List.length_nil, List.length_take]
          omega)]
    simp [initialContextState]
  · rw [runCreateExtensionGroupDone_complete app_uri cmd gs
      initialContextState hne
      (by simp only [initialContextState, List.length_nil]
          omega)]
    simp [initialContextState]

theorem create_extension_group_done_completion_witness :
    ([({ name := "grp_1", addon_name := "addon_1",
         extension_addon_and_instance_name_pairs := [],
         bound_to_app := false, bound_to_context := false,
         extension_group_info := none } : ExtensionGroup),
      { name := "grp_2", addon_name := "addon_2",
        extension_addon_and_instance_name_pairs := [],
        bound_to_app := false, bound_to_context := false,
        extension_group_info := none }].length
      = (localExtensionGroupInfos ("app_w")
          ({ dest := { app_uri := "app_w", graph_id := "graph_w",
                       extension_name := "" },
             extensions_info := [],
             extension_groups_info :=
               [{ app_uri := "app_w", extension_group_addon_name := "addon_1",
                  extension_group_instance_name := "grp_1" },
                { app_uri := "app_w", extension_group_addon_name := "addon_2",
                  extension_group_instance_name := "grp_2" }] } :
            StartGraphCmd).extension_groups_info).length)
    ∧ (runCreateExtensionGroupDone ("app_w")
        { dest := { app_uri := "app_w", graph_id := "graph_w",
                    extension_name := "" },
          extensions_info := [],
          extension_groups_info :=
            [{ app_uri := "app_w", extension_group_addon_name := "addon_1",
               extension_group_instance_name := "grp_1" },
             { app_uri := "app_w", extension_group_addon_name := "addon_2",
               extension_group_instance_name := "grp_2" }] }
        [{ name := "grp_1", addon_name := "addon_1",
           extension_addon_and_instance_name_pairs := [],
           bound_to_app := false, bound_to_context := false,
           extension_group_info := none },
         { name := "grp_2", addon_name := "addon_2",
           extension_addon_and_instance_name_pairs := [],
           bound_to_app := false, bound_to_context := false,
           extension_group_info := none }]
        initialContextState).graph_resources_logs = 1 := by
  refine ⟨by decide, ?_⟩
  rw [(create_extension_group_done_completion ("app_w")
    { dest := { app_uri := "app_w", graph_id := "graph_w",
                extension_name := "" },
      extensions_info := [],
      extension_groups_info :=
        [{ app_uri := "app_w", extension_group_addon_name := "addon_1",
           extension_group_instance_name := "grp_1" },
         { app_uri := "app_w", extension_group_addon_name := "addon_2",
           extension_group_instance_name := "grp_2" }] }
    [{ name := "grp_1", addon_name := "addon_1",
       extension_addon_and_instance_name_pairs := [],
       bound_to_app := false, bound_to_context := false,
       extension_group_info := none },
     { name := "grp_2", addon_name := "addon_2",
       extension_addon_and_instance_name_pairs := [],
       bound_to_app := false, bound_to_context := false,
       extension_group_info := none }]
    (by decide) (by decide)).2]

/-- C5: the group-created callback populates the group's
`(extension_addon_name, extension_instance_name)` pairs from the StartGraph
command exactly when the group addon is the built-in
`default_extension_group`, the pairs being those extensions the command
scheduled into that group as matched by the command destination's `app_uri`
and `graph_id` and the group's name; for any other addon the list is left
untouched. -/
theorem create_extension_group_done_default_group_pairs (app_uri : String)
    (cmd : StartGraphCmd) (st : ContextState)
    (extension_group : ExtensionGroup) :
    ((ten_extension_context_create_extension_group_done app_uri cmd st
        extension_group).2).extension_addon_and_instance_name_pairs
      = if extension_group.addon_name == TEN_STR_DEFAULT_EXTENSION_GROUP then
          (cmd.extensions_info.filter (fun i =>
              i.loc.app_uri == cmd.dest.app_uri
                && i.loc.graph_id == cmd.dest.graph_id
                && i.extension_group_name == extension_group.name)).map
            (fun i => (i.extension_addon_name, i.loc.extension_name))
        else extension_group.extension_addon_and_instance_name_pairs := by
  by_cases hd : (extension_group.addon_name
      == TEN_STR_DEFAULT_EXTENSION_GROUP) = true
  · simp only [ten_extension_context_create_extension_group_done,
      ten_cmd_start_graph_get_extension_addon_and_instance_name_pairs, hd,
      if_true]
    split <;> simp
  · simp only [ten_extension_context_create_extension_group_done,
      ten_cmd_start_graph_get_extension_addon_and_instance_name_pairs,
      Bool.not_eq_true] at hd ⊢
    simp only [hd, Bool.false_eq_true, if_false]
    split <;> simp

/-! ## Lemmas about the log matcher -/

theorem handlerEmits_eq_find (rules : List LogRule) (category : String)
    (level : LogLevel) :
    handlerEmits rules category level
      = (match rules.find? (fun r => ruleMatches r category level) with
         | none => false
         | some r => !(r.level == LogLevel.off)) := by
  induction rules with
  | nil => rfl
  | cons r rest ih =>
    cases hm : ruleMatches r category level with
    | true => simp [handlerEmits, List.find?_cons, hm]
    | false => simp [handlerEmits, List.find?_cons, hm, ih]

/-- C6 counterexample: for the handler with rules `[{category: "c", level:
info}, {level: debug}]` and an event of category "c" at level debug, the
matcher emits the event — the first rule does not match, because the event
level is below the rule's (non-off) level, so the second rule applies —
whereas the claimed reading, under which the first rule whose category glob
matches decides the outcome, drops it. -/
theorem handler_rule_semantics_cex :
    handlerEmits
        [{ category := some ("c"), level := LogLevel.info },
         { category := none, level := LogLevel.debug }] ("c") LogLevel.debug
      = true
    ∧ handlerEmitsFirstCategoryMatch
        [{ category := some ("c"), level := LogLevel.info },
         { category := none, level := LogLevel.debug }] ("c") LogLevel.debug
      = false := by
  decide

/-- C6 (amended): for every log event and handler, the first rule that
matches — its category glob (absent means any) matches the event's category,
and its level is `off` or the event level is at least the rule level —
decides the outcome: the event is emitted iff that rule's level is not
`off`; an event matching no rule is dropped. Consequently, with handler A =
`[{category: ten:runtime, level: info}]` and handler B = `[{category:
ten:runtime, level: off}, {level: debug}]` writing to the same file,
extension-category DEBUG and INFO lines appear in the file and no
`ten:runtime` DEBUG line does. -/
theorem log_category_filter_first_match (rules : List LogRule)
    (category : String) (level : LogLevel) :
    handlerEmits rules category level
      = (match rules.find? (fun r => ruleMatches r category level) with
         | none => false
         | some r => !(r.level == LogLevel.off))
    ∧ categoryFilterFileHasLine ("test_extension") LogLevel.debug = true
    ∧ categoryFilterFileHasLine ("test_extension") LogLevel.info = true
    ∧ categoryFilterFileHasLine ("ten:runtime") LogLevel.debug = false :=
  ⟨handlerEmits_eq_find rules category level, by decide, by decide, by decide⟩

/-! ## The Python tester log binding -/

/-- C7: when the owner is closed — `c_ten_env_tester_proxy` has been torn
down — a well-formed `ten_env_tester.log` call from Python returns an error
wrap with code `TenIsClosed` and posts no task to the tester. -/
theorem py_ten_env_tester_log_when_closed (call : PyLogCall)
    (hargs : call.arg_count = 8) (hparse : call.parse_ok = true)
    (hclosed : call.proxy_alive = false) :
    ten_py_ten_env_tester_log call
      = (PyLogOutcome.errorWrapReturned
          { code := TenErrorCode.TenIsClosed,
            msg := "ten_env_tester.log() failed because ten is closed." },
         0) := by
  simp [ten_py_ten_env_tester_log, hargs, hparse, hclosed]

theorem py_ten_env_tester_log_when_closed_witness :
    ({ arg_count := 8, parse_ok := true, fields_buf_is_none_or_bytes := true,
       proxy_alive := false, proxy_notify_error := none } :
        PyLogCall).arg_count = 8
    ∧ ten_py_ten_env_tester_log
        { arg_count := 8, parse_ok := true,
          fields_buf_is_none_or_bytes := true, proxy_alive := false,
          proxy_notify_error := none }
      = (PyLogOutcome.errorWrapReturned
          { code := TenErrorCode.TenIsClosed,
            msg := "ten_env_tester.log() failed because ten is closed." },
         0) :=
  ⟨rfl,
   py_ten_env_tester_log_when_closed
     { arg_count := 8, parse_ok := true, fields_buf_is_none_or_bytes := true,
       proxy_alive := false, proxy_notify_error := none } rfl rfl rfl⟩

/-! ## Structured-fields JSON round trip -/

theorem decodeInt64_encodeInt64 (i : Int) :
    decodeInt64 (encodeInt64 i) = i := by
  by_cases h : i < 0
  · simp only [decodeInt64, encodeInt64, decide_eq_true_eq, h, if_true,
      Int.ofNat_eq_coe, Nat.ofDigits_digits]
    omega
  · simp only [decodeInt64, encodeInt64, decide_eq_true_eq, h, if_false,
      Int.ofNat_eq_coe, Nat.ofDigits_digits]
    omega

theorem decodeField_encodeField (v : FieldValue) :
    decodeField (encodeField v) = v := by
  cases v with
  | vstring s => rfl
  | vint64 i => simp [encodeField, decodeField, decodeInt64_encodeInt64]
  | vdecimal m scale =>
    by_cases h : m < 0 <;>
      simp only [encodeField, decodeField, decide_eq_true_eq, h, if_true,
        if_false, Int.ofNat_eq_coe, Nat.ofDigits_digits,
        FieldValue.vdecimal.injEq, and_true] <;>
      omega
  | vbool b => rfl

theorem decodeFields_encodeFields (fields : List (String × FieldValue)) :
    decodeFields (encodeFields fields) = fields := by
  induction fields with
  | nil => rfl
  | cons kv rest ih =>
    simp only [decodeFields, encodeFields, List.map_cons] at ih ⊢
    rw [decodeField_encodeField]
    simp [ih]

theorem int64_max_not_representable_f64 :
    ¬ representableAsF64 9223372036854775807 := by
  rintro ⟨m, e, hm, heq⟩
  cases e with
  | zero =>
    norm_num at heq hm
    omega
  | succ e2 =>
    have h2 : (2 : Int) ∣ 9223372036854775807 := by
      rw [heq, pow_succ]
      exact ⟨m * 2 ^ e2, by ring⟩
    omega

/-- C8: the JSON rendering of the fields map of the structured-log test
round-trips exactly — parsing the rendered object gives back every field
value, in particular the i64 value 9223372036854775807 — and that value has
no exact f64 representation, so an encoder that routed the i64 through an
f64 could not have preserved it. -/
theorem log_fields_json_roundtrip_exact :
    decodeFields (encodeFields logAdvancedWithFieldsMap)
      = logAdvancedWithFieldsMap
    ∧ logAdvancedWithFieldsMap.lookup ("large_number")
      = some (FieldValue.vint64 9223372036854775807)
    ∧ ¬ representableAsF64 9223372036854775807 :=
  ⟨decodeFields_encodeFields logAdvancedWithFieldsMap, by decide,
   int64_max_not_representable_f64⟩

/-! ## The two-extension ping-pong scenario -/

theorem pingPongRun_round (k : Nat) (hk : k ≤ 100) :
    pingPongRun (2 * k)
      = { ext1_cnt := k, inflight := some PingPongMsg.test_cmd_from_1,
          from1_receipts := k, from2_receipts := k, ext1_ok_results := k,
          ext2_ok_results := k, from1_sends := k + 1, from2_sends := k,
          close_app_sends := 0, close_app_dest_locs := [],
          app_closed := false, ext1_on_deinit_done := false,
          ext2_on_deinit_done := false, exit_status := none } := by
  induction k with
  | zero => rfl
  | succ k ih =>
    have hk2 : k ≤ 100 := by omega
    have hklt : k < 100 := by omega
    have hsplit : 2 * (k + 1) = (2 * k) + 1 + 1 := by ring
    rw [pingPongRun, hsplit, Function.iterate_succ_apply',
      Function.iterate_succ_apply']
    rw [show Nat.iterate pingPongStep (2 * k) pingPongInit
      = pingPongRun (2 * k) from rfl]
    rw [ih hk2]
    simp [pingPongStep, hklt]

/-- C9: in the long-running ping-pong graph, `extension_1.on_start` sends the
first `test_cmd_from_1`; each delivery of `test_cmd_from_1` makes
`extension_2` reply OK and send `test_cmd_from_2` back; on each
`test_cmd_from_2` receipt with the counter below 100, `extension_1` replies
OK and re-sends `test_cmd_from_1`; at the receipt where the counter has
reached 100 — the 101st — it instead sends exactly one CloseApp command
whose single destination location has an empty `app_uri`, after which the
app closes, both extensions execute `on_deinit_done`, the process exits 0,
and the system is quiescent. -/
theorem ping_pong_long_running_scenario (k : Nat) (hk : k ≤ 100) :
    pingPongInit.from1_sends = 1
    ∧ (pingPongRun (2 * k)).from1_sends = k + 1
    ∧ (pingPongRun (2 * k)).from2_receipts = k
    ∧ (pingPongRun (2 * k)).ext1_ok_results = k
    ∧ (pingPongRun (2 * k)).close_app_sends = 0
    ∧ (pingPongRun 202).from2_receipts = 101
    ∧ (pingPongRun 202).close_app_sends = 1
    ∧ (pingPongRun 202).close_app_dest_locs
        = [{ app_uri := "", graph_id := "", extension_name := "" }]
    ∧ (pingPongRun 203).exit_status = some 0
    ∧ (pingPongRun 203).ext1_on_deinit_done = true
    ∧ (pingPongRun 203).ext2_on_deinit_done = true
    ∧ (pingPongRun 203).close_app_sends = 1
    ∧ pingPongStep (pingPongRun 203) = pingPongRun 203 := by
  have h200 := pingPongRun_round 100 (by omega)
  have h202 : pingPongRun 202
      = pingPongStep (pingPongStep (pingPongRun 200)) := by
    rw [show (202 : Nat) = 200 + 1 + 1 from rfl, pingPongRun,
      Function.iterate_succ_apply', Function.iterate_succ_apply']
    rfl
  have h202v : pingPongRun 202
      = { ext1_cnt := 100, inflight := some PingPongMsg.close_app,
          from1_receipts := 101, from2_receipts := 101,
          ext1_ok_results := 101, ext2_ok_results := 101,
          from1_sends := 101, from2_sends := 101, close_app_sends := 1,
          close_app_dest_locs :=
            [{ app_uri := "", graph_id := "", extension_name := "" }],
          app_closed := false, ext1_on_deinit_done := false,
          ext2_on_deinit_done := false, exit_status := none } := by
    rw [h202, show (200 : Nat) = 2 * 100 from rfl, h200]
    simp [pingPongStep]
  have h203 : pingPongRun 203 = pingPongStep (pingPongRun 202) := by
    rw [show (203 : Nat) = 202 + 1 from rfl, pingPongRun,
      Function.iterate_succ_apply']
    rfl
  have h203v : pingPongRun 203
      = { ext1_cnt := 100, inflight := none,
          from1_receipts := 101, from2_receipts := 101,
          ext1_ok_results := 101, ext2_ok_results := 101,
          from1_sends := 101, from2_sends := 101, close_app_sends := 1,
          close_app_dest_locs :=
            [{ app_uri := "", graph_id := "", extension_name := "" }],
          app_closed := true, ext1_on_deinit_done := true,
          ext2_on_deinit_done := true, exit_status := some 0 } := by
    rw [h203, h202v]
    rfl
  refine ⟨rfl, ?_, ?_, ?_, ?_, ?_, ?_, ?_, ?_, ?_, ?_, ?_, ?_⟩
  · rw [pingPongRun_round k hk]
  · rw [pingPongRun_round k hk]
  · rw [pingPongRun_round k hk]
  · rw [pingPongRun_round k hk]
  · rw [h202v]
  · rw [h202v]
  · rw [h202v]
  · rw [h203v]
  · rw [h203v]
  · rw [h203v]
  · rw [h203v]
  · rw [h203v]
    rfl

theorem ping_pong_long_running_scenario_witness :
    (3 : Nat) ≤ 100
    ∧ (pingPongRun (2 * 3)).from1_sends = 3 + 1
    ∧ (pingPongRun 203).exit_status = some 0 :=
  ⟨by decide, (ping_pong_long_running_scenario 3 (by decide)).2.1,
   (ping_pong_long_running_scenario 3 (by decide)).2.2.2.2.2.2.2.2.1⟩

end TenRuntime
